import Mathlib

/-!
# A verification development for the `todo` projects API (`main.go`)

The program is a single Go file: five HTTP handlers over one relational table
`projects (id, name, description)`.  The handlers are embedded as pure
functions `DB → Request → DB × Response`.  The Go standard-library functions
they call (`strconv.Atoi`, `strconv.ParseInt`, `json.Marshal`, `fmt.Fprintf`,
`http.Error`, `http.NotFound`) and the SQL statements they send are embedded
as executable definitions next to them.

The store is the table the source describes in its set-up comment: the
statements act on a list of rows under the primary key and the column types of
that schema.  Beside the rows the store handle keeps a log of the statements
sent, so that "no query is issued" can be stated.

Go strings are modelled as Lean strings (sequences of Unicode characters), so
only well-formed UTF-8 request parameters are covered.  Go `int` is the 64-bit
`int` of the usual server platforms.
-/

set_option autoImplicit false

namespace Todo

/-! ## `strconv` -/

/-- The error values of `strconv` number parsing. -/
inductive NumError where
  | ErrSyntax
  | ErrRange
  | ErrBase
  | ErrBitSize
deriving DecidableEq, Repr

/-- Size in bits of Go `int` (`strconv.IntSize`). -/
def intSize : Nat := 64

/-- The constant `maxUint64` of `strconv`. -/
def maxUint64 : Nat := 2 ^ 64 - 1

/-- The helper `lower` of `strconv`: `c | ('x' - 'X')` on a byte. -/
def lower (c : Nat) : Nat := c ||| 32

/-- The digit loop of `strconv.ParseUint` (`for _, c := range []byte(s)`), with
the accumulator `n`.  A character outside ASCII is a run of bytes `≥ 0x80`,
which the loop rejects at the first one, like any other non-digit. -/
def parseUintLoop (base cutoff maxVal : Nat) : List Char → Nat → Nat × Option NumError
  | [], n => (n, none)
  | ch :: rest, n =>
    let c := ch.toNat
    let digit : Option Nat :=
      if 48 ≤ c ∧ c ≤ 57 then some (c - 48)
      else if c < 128 ∧ 97 ≤ lower c ∧ lower c ≤ 122 then some (lower c - 97 + 10)
      else none
    match digit with
    | none => (0, some NumError.ErrSyntax)
    | some d =>
      if d ≥ base then (0, some NumError.ErrSyntax)
      else if n ≥ cutoff then (maxVal, some NumError.ErrRange)
      else
        let n1 := n * base + d
        if n1 > maxUint64 ∨ n1 > maxVal then (maxVal, some NumError.ErrRange)
        else parseUintLoop base cutoff maxVal rest n1

/-- Go `strconv.ParseUint(s, base, bitSize)` for an explicit base `2 ≤ base ≤ 36`.
Base 0 (prefix detection and underscores) is never passed by this program and
is not modelled: it is reported like any other base outside `2..36`. -/
def ParseUint (s : String) (base bitSize : Nat) : Nat × Option NumError :=
  if s = "" then (0, some NumError.ErrSyntax)
  else if ¬ (2 ≤ base ∧ base ≤ 36) then (0, some NumError.ErrBase)
  else
    let bitSize := if bitSize = 0 then intSize else bitSize
    if bitSize > 64 then (0, some NumError.ErrBitSize)
    else
      let cutoff := maxUint64 / base + 1
      let maxVal := 2 ^ bitSize - 1
      parseUintLoop base cutoff maxVal s.data 0

/-- Go `strconv.ParseInt(s, base, bitSize)`: the value and the error (`none` is
Go's `nil`).  On a range error the value is the largest-magnitude integer of
the size and sign. -/
def ParseInt (s : String) (base bitSize : Nat) : Int × Option NumError :=
  if s = "" then (0, some NumError.ErrSyntax)
  else
    let neg := s.data.head? = some '-'
    let digits : String :=
      if s.data.head? = some '+' ∨ s.data.head? = some '-' then ⟨s.data.tail⟩ else s
    match ParseUint digits base bitSize with
    | (_, some NumError.ErrSyntax) => (0, some NumError.ErrSyntax)
    | (_, some NumError.ErrBase) => (0, some NumError.ErrBase)
    | (_, some NumError.ErrBitSize) => (0, some NumError.ErrBitSize)
    | (un, _) =>
      let bitSize := if bitSize = 0 then intSize else bitSize
      let cutoff : Nat := 2 ^ (bitSize - 1)
      if ¬ neg ∧ un ≥ cutoff then ((cutoff : Int) - 1, some NumError.ErrRange)
      else if neg ∧ un > cutoff then (- (cutoff : Int), some NumError.ErrRange)
      else if neg then (- (un : Int), none)
      else ((un : Int), none)

/-- The fast-path digit loop of `strconv.Atoi`: `ch -= '0'; if ch > 9 { error }`. -/
def atoiLoop : List Char → Nat → Option Nat
  | [], n => some n
  | ch :: rest, n =>
    if ch.toNat < 48 ∨ ch.toNat > 57 then none
    else atoiLoop rest (n * 10 + (ch.toNat - 48))

/-- Go `strconv.Atoi(s)`.  `len(s)` is the length in bytes. -/
def Atoi (s : String) : Int × Option NumError :=
  let sLen := s.utf8ByteSize
  if (intSize = 32 ∧ 0 < sLen ∧ sLen < 10) ∨ (intSize = 64 ∧ 0 < sLen ∧ sLen < 19) then
    let signed := s.data.head? = some '-' ∨ s.data.head? = some '+'
    let body := if signed then s.data.tail else s.data
    if signed ∧ body.length < 1 then (0, some NumError.ErrSyntax)
    else
      match atoiLoop body 0 with
      | none => (0, some NumError.ErrSyntax)
      | some n => if s.data.head? = some '-' then (- (n : Int), none) else ((n : Int), none)
  else
    ParseInt s 10 0

/-! ## `encoding/json` -/

/-- The table `hex` of `encoding/json`. -/
def hex (n : Nat) : Char := "0123456789abcdef".data.getD n '0'

/-- The table `htmlSafeSet` of `encoding/json`: the ASCII characters written
unescaped, every one from space to DEL except the five below. -/
def htmlSafeSet (c : Char) : Bool :=
  32 ≤ c.toNat && c.toNat < 128 &&
    !(c = '"' || c = '\\' || c = '<' || c = '>' || c = '&')

/-- One step of `appendString` of `encoding/json` (with `escapeHTML` set, as
`json.Marshal` does): the text written for one character of the source. -/
def appendStringChar (c : Char) : List Char :=
  if c.toNat < 128 then
    if htmlSafeSet c then [c]
    else if c = '\\' ∨ c = '"' then ['\\', c]
    else if c.toNat = 8 then ['\\', 'b']
    else if c.toNat = 12 then ['\\', 'f']
    else if c = '\n' then ['\\', 'n']
    else if c = '\r' then ['\\', 'r']
    else if c = '\t' then ['\\', 't']
    else ['\\', 'u', '0', '0', hex (c.toNat / 16), hex (c.toNat % 16)]
  else if c.toNat = 0x2028 ∨ c.toNat = 0x2029 then
    ['\\', 'u', '2', '0', '2', hex (c.toNat % 16)]
  else [c]

/-- The JSON encoding of a Go string: `json.Marshal(s)`. -/
def marshalString (s : String) : String :=
  ⟨'"' :: (s.data.map appendStringChar).flatten ++ ['"']⟩

/-- Decimal text of an integer: `json.Marshal` of an `int`/`int64`, and the
verb `%v` of `fmt` on one. -/
def formatInt (i : Int) : String :=
  if i < 0 then "-" ++ Nat.repr i.natAbs else Nat.repr i.toNat

/-! ## `fmt` -/

/-- An operand of a formatting call (`a ...any`), for the two dynamic types
this program passes. -/
inductive Operand where
  | string (s : String)
  | int64 (i : Int)
deriving DecidableEq, Repr

/-- The formatting flags of `fmt` (`fmtFlags` with `wid` and `prec`). -/
structure fmtFlags where
  wid : Int := 0
  prec : Int := 0
  widPresent : Bool := false
  precPresent : Bool := false
  minus : Bool := false
  plus : Bool := false
  sharp : Bool := false
  space : Bool := false
  zero : Bool := false
deriving DecidableEq, Repr

/-- The printer state of `fmt` (`pp`), as far as `doPrintf` uses it. -/
structure pp where
  buf : String := ""
  fmt : fmtFlags := {}
  reordered : Bool := false
  goodArgNum : Bool := true
deriving DecidableEq, Repr

/-- The helper `tooLarge` of `fmt`. -/
def tooLarge (x : Int) : Bool := x > 1000000 || x < -1000000

/-- The loop of `parsenum`. -/
def parsenumLoop : List Char → Nat → Bool → Nat × Bool × List Char
  | [], num, isnum => (num, isnum, [])
  | c :: rest, num, isnum =>
    if 48 ≤ c.toNat ∧ c.toNat ≤ 57 then
      if tooLarge num then (0, false, [])
      else parsenumLoop rest (num * 10 + (c.toNat - 48)) true
    else (num, isnum, c :: rest)

/-- The helper `parsenum(s, start, end)` of `fmt` on the slice `s[start:end]`:
the number, whether there is one, and the unread rest of the slice.  On
overflow Go returns `newi = end`, an empty rest. -/
def parsenum (s : List Char) : Nat × Bool × List Char := parsenumLoop s 0 false

/-- Length in bytes of a piece of text. -/
def byteLen (s : List Char) : Nat := (String.mk s).utf8ByteSize

/-- The helper `parseArgNumber(format)` of `fmt`, for `format` starting at an
opening bracket of which `tl` is the rest: the index, the text after the
bracketed part (`format[wid:]`), and `ok`. -/
def parseArgNumber (tl : List Char) : Int × List Char × Bool :=
  if byteLen ('[' :: tl) < 3 then (0, tl, false)
  else
    let inner := tl.takeWhile (fun c => c != ']')
    match tl.dropWhile (fun c => c != ']') with
    | [] => (0, tl, false)
    | _ :: after =>
      match parsenum inner with
      | (width, ok, rest) =>
        if !ok || !rest.isEmpty then (0, after, false)
        else ((width : Int) - 1, after, true)

/-- The method `argNumber` of `fmt`: the new printer state, `newArgNum`, the
format from `newi` on, and `found`. -/
def argNumber (p : pp) (argNum : Nat) (format : List Char) (numArgs : Nat) :
    pp × Nat × List Char × Bool :=
  match format with
  | '[' :: tl =>
    let p := { p with reordered := true }
    match parseArgNumber tl with
    | (index, after, ok) =>
      if ok ∧ 0 ≤ index ∧ index < numArgs then (p, index.toNat, after, true)
      else ({ p with goodArgNum := false }, argNum, after, ok)
  | _ => (p, argNum, format, false)

/-- The helper `intFromArg` of `fmt`. -/
def intFromArg (a : List Operand) (argNum : Nat) : Int × Bool × Nat :=
  match a.get? argNum with
  | none => (0, false, argNum)
  | some (Operand.int64 n) => if tooLarge n then (0, false, argNum + 1) else (n, true, argNum + 1)
  | some (Operand.string _) => (0, false, argNum + 1)

/-- The method `printArg` of `fmt`, modelled for what this program prints:
a string or an integer under a verb with no flag, width or precision, where
`%v` (and `%s`, `%d`) write the string itself and the decimal integer.  Any
other combination is outside the model (`none`). -/
def printArg (f : fmtFlags) (arg : Operand) (verb : Char) : Option String :=
  if f.widPresent ∨ f.precPresent ∨ f.minus ∨ f.plus ∨ f.sharp ∨ f.space ∨ f.zero then none
  else
    match arg with
    | Operand.string s => if verb = 'v' ∨ verb = 's' then some s else none
    | Operand.int64 i => if verb = 'v' ∨ verb = 'd' then some (formatInt i) else none

/-- The flag loop of `doPrintf` (label `simpleFormat`): the flags read and the
format from the first character that is not a flag. -/
def scanFlags : List Char → fmtFlags → fmtFlags × List Char
  | [], f => (f, [])
  | c :: rest, f =>
    if c = '#' then scanFlags rest { f with sharp := true }
    else if c = '0' then scanFlags rest { f with zero := true }
    else if c = '+' then scanFlags rest { f with plus := true }
    else if c = '-' then scanFlags rest { f with minus := true }
    else if c = ' ' then scanFlags rest { f with space := true }
    else (f, c :: rest)

/-- The width part of one directive of `doPrintf`. -/
def scanWidth (a : List Operand) (p : pp) (argNum : Nat) (format : List Char)
    (afterIndex : Bool) : pp × Nat × List Char × Bool :=
  match format with
  | '*' :: rest =>
    match intFromArg a argNum with
    | (wid, widPresent, argNum) =>
      let p := { p with fmt := { p.fmt with wid := wid, widPresent := widPresent } }
      let p := if !widPresent then { p with buf := p.buf ++ "%!(BADWIDTH)" } else p
      let p := if wid < 0 then
          { p with fmt := { p.fmt with wid := -wid, minus := true, zero := false } } else p
      (p, argNum, rest, false)
  | _ =>
    match parsenum format with
    | (wid, widPresent, rest) =>
      let p := { p with fmt := { p.fmt with wid := wid, widPresent := widPresent } }
      let p := if afterIndex && widPresent then { p with goodArgNum := false } else p
      (p, argNum, rest, afterIndex)

/-- The precision part of one directive of `doPrintf`
(`if i+1 < end && format[i] == '.'`): a dot opens a precision only when a
character follows it; a dot that ends the format is left to be read as the
verb. -/
def scanPrec (a : List Operand) (p : pp) (argNum : Nat) (format : List Char)
    (afterIndex : Bool) : pp × Nat × List Char × Bool :=
  match format with
  | '.' :: next :: more =>
    let rest := next :: more
    let p := if afterIndex then { p with goodArgNum := false } else p
    match argNumber p argNum rest a.length with
    | (p, argNum, format, afterIndex) =>
      match format with
      | '*' :: rest =>
        match intFromArg a argNum with
        | (prec, precPresent, argNum) =>
          let neg : Bool := prec < 0
          let prec := if neg then 0 else prec
          let precPresent := if neg then false else precPresent
          let p := { p with fmt := { p.fmt with prec := prec, precPresent := precPresent } }
          let p := if !precPresent then { p with buf := p.buf ++ "%!(BADPREC)" } else p
          (p, argNum, rest, false)
      | _ =>
        match parsenum format with
        | (prec, _, rest) =>
          ({ p with fmt := { p.fmt with prec := prec, precPresent := true } },
            argNum, rest, afterIndex)
  | _ => (p, argNum, format, afterIndex)

/-- The final `switch` of one directive of `doPrintf`, on the verb. -/
def printVerb (a : List Operand) (p : pp) (argNum : Nat) (verb : Char) : Option (pp × Nat) :=
  if verb = '%' then some ({ p with buf := p.buf ++ "%" }, argNum)
  else if !p.goodArgNum then
    some ({ p with buf := p.buf ++ "%!" ++ String.singleton verb ++ "(BADINDEX)" }, argNum)
  else
    match a.get? argNum with
    | none => some ({ p with buf := p.buf ++ "%!" ++ String.singleton verb ++ "(MISSING)" }, argNum)
    | some arg => (printArg p.fmt arg verb).map (fun s => ({ p with buf := p.buf ++ s }, argNum + 1))

/-- One directive of `doPrintf` after its flags, on the general path: argument
index, width, precision, argument index again, and the verb. -/
def directiveTail (a : List Operand) (p : pp) (argNum : Nat) (format : List Char) :
    Option (pp × Nat × List Char) :=
  match argNumber p argNum format a.length with
  | (p, argNum, format, afterIndex) =>
    match scanWidth a p argNum format afterIndex with
    | (p, argNum, format, afterIndex) =>
      match scanPrec a p argNum format afterIndex with
      | (p, argNum, format, afterIndex) =>
        match (if afterIndex then (p, argNum, format, afterIndex)
               else argNumber p argNum format a.length) with
        | (p, argNum, format, _) =>
          match format with
          | [] => some ({ p with buf := p.buf ++ "%!(NOVERB)" }, argNum, [])
          | verb :: rest => (printVerb a p argNum verb).map (fun r => (r.1, r.2, rest))

/-- One directive of `doPrintf`: `format` is the text after the percent sign.
The result is the printer, the operand counter and the format still to read.
After the flags comes the fast path for a plain lower-case verb with an
operand at hand, else the general path. -/
def directive (a : List Operand) (p : pp) (argNum : Nat) (format : List Char) :
    Option (pp × Nat × List Char) :=
  match scanFlags format {} with
  | (f, format) =>
    let p := { p with fmt := f }
    match format with
    | c :: rest =>
      if 'a' ≤ c ∧ c ≤ 'z' ∧ argNum < a.length then
        match a.get? argNum with
        | some arg =>
          (printArg p.fmt arg c).map (fun s => ({ p with buf := p.buf ++ s }, argNum + 1, rest))
        | none => none
      else directiveTail a p argNum format
    | [] => directiveTail a p argNum format

/-- The loop `formatLoop` of `doPrintf`.  Each round reads at least one
character of a non-empty format, so `format.length + 1` rounds are enough. -/
def formatLoop (a : List Operand) : Nat → List Char → pp → Nat → Option (pp × Nat)
  | 0, _, _, _ => none
  | fuel + 1, format, p, argNum =>
    let p := { p with goodArgNum := true }
    let p := { p with buf := p.buf ++ String.mk (format.takeWhile (fun c => c != '%')) }
    match format.dropWhile (fun c => c != '%') with
    | [] => some (p, argNum)
    | _ :: format =>
      match directive a p argNum format with
      | none => none
      | some (p, argNum, format) => formatLoop a fuel format p argNum

/-- The dynamic type name `fmt` prints for an operand. -/
def Operand.typeName : Operand → String
  | Operand.string _ => "string"
  | Operand.int64 _ => "int64"

/-- The report of unused operands at the end of `doPrintf`. -/
def extraArgs : List Operand → Option (List String)
  | [] => some []
  | arg :: rest =>
    match printArg {} arg 'v', extraArgs rest with
    | some s, some l => some ((arg.typeName ++ "=" ++ s) :: l)
    | _, _ => none

/-- Go `fmt.Sprintf(format, a...)`, through the method `doPrintf`.  The result
is `none` only where an operand meets a directive `printArg` does not model. -/
def Sprintf (format : String) (a : List Operand) : Option String :=
  match formatLoop a (format.length + 1) format.data {} 0 with
  | none => none
  | some (p, argNum) =>
    if !p.reordered ∧ argNum < a.length then
      (extraArgs (a.drop argNum)).map (fun l => p.buf ++ "%!(EXTRA " ++ ", ".intercalate l ++ ")")
    else some p.buf

/-! ## `net/http` -/

/-- An incoming request: its method and its parsed form (`r.Form`: the body
parameters of a POST or PUT first, then those of the URL query). -/
structure Request where
  Method : String
  Form : List (String × String)
deriving DecidableEq, Repr

/-- Go `r.FormValue(key)`: the first value for `key`, or the empty string. -/
def Request.FormValue (r : Request) (key : String) : String :=
  match r.Form.find? (fun kv => kv.1 = key) with
  | some kv => kv.2
  | none => ""

/-- What a handler has written to its `http.ResponseWriter`. -/
structure Response where
  status : Nat
  body : String
deriving DecidableEq, Repr

/-- Go `http.StatusText(code)`, for the codes this program uses. -/
def StatusText (code : Nat) : String :=
  if code = 400 then "Bad Request"
  else if code = 404 then "Not Found"
  else if code = 405 then "Method Not Allowed"
  else if code = 500 then "Internal Server Error"
  else ""

/-- Go `http.Error(w, error, code)`: the status and the message on a line. -/
def Error (error : String) (code : Nat) : Response := ⟨code, error ++ "\n"⟩

/-- Go `http.NotFound(w, r)`. -/
def NotFound : Response := Error "404 page not found" 404

/-- Go `fmt.Fprintf(w, format, a...)` as the only write of a handler: the
status is the implicit 200.  Nothing is written where `Sprintf` is outside
its model, which no call of this program is. -/
def Fprintf (format : String) (a : List Operand) : Response :=
  ⟨200, (Sprintf format a).getD ""⟩

/-! ## The store: table `projects` and `database/sql` -/

/-- A row of `projects`, after the schema in the source:
`id SERIAL NOT NULL PRIMARY KEY, name VARCHAR(500) NOT NULL,
description VARCHAR(1000)`.  The description is nullable. -/
structure Row where
  id : Int
  name : String
  description : Option String
deriving DecidableEq, Repr

/-- A column value as the driver hands it to `Scan`. -/
inductive Value where
  | int (i : Int)
  | text (s : String)
  | null
deriving DecidableEq, Repr

/-- The columns of a row in table order, as `SELECT *` returns them. -/
def Row.columns (row : Row) : List Value :=
  [Value.int row.id, Value.text row.name,
    match row.description with
    | some d => Value.text d
    | none => Value.null]

/-- The five SQL statements of the program, with their parameters. -/
inductive Stmt where
  /-- `SELECT * FROM projects ORDER BY ID ASC` -/
  | selectAll
  /-- `SELECT * FROM projects  WHERE ID = $1` -/
  | selectByID (ID : Int)
  /-- `INSERT INTO projects VALUES($1, $2, $3)` -/
  | insert (ID : Int) (Name Description : String)
  /-- `DELETE FROM projects WHERE ID = $1` -/
  | delete (ID : Int)
  /-- `UPDATE projects SET Name = $2, Description = $3 WHERE ID = $1` -/
  | update (ID : Int) (Name Description : String)
deriving DecidableEq, Repr

/-- Errors of the store and of `database/sql`. -/
inductive DbError where
  /-- `sql.ErrNoRows` -/
  | ErrNoRows
  /-- A `Scan` conversion failed, such as NULL into a `*string`. -/
  | ErrScan
  /-- The primary-key constraint rejected an insert. -/
  | ErrUniqueViolation
  /-- A value is out of range for type integer. -/
  | ErrOutOfRange
  /-- A value is too long for type character varying(n). -/
  | ErrTooLong
  /-- A text parameter holds a zero byte, which no text value may. -/
  | ErrInvalidByte
deriving DecidableEq, Repr

/-- The store handle `db`: the rows of the table, and the statements sent to
the store so far (oldest first). -/
structure DB where
  rows : List Row
  log : List Stmt
deriving DecidableEq, Repr

/-- The primary-key constraint of the table: no two rows share an id. -/
def PrimaryKey (rows : List Row) : Prop := (rows.map Row.id).Nodup

instance (rows : List Row) : Decidable (PrimaryKey rows) := by
  unfold PrimaryKey; infer_instance

/-- The values of the column type of `id`: `SERIAL` is a 32-bit integer. -/
def fitsInteger (i : Int) : Prop := -2147483648 ≤ i ∧ i ≤ 2147483647

instance (i : Int) : Decidable (fitsInteger i) := by
  unfold fitsInteger; infer_instance

/-- A parameter that stands for the column `id`, in `VALUES` or against `ID`
in a `WHERE` clause.  The driver sends it as text and the store reads it with
the type of the column, so a value outside the 32-bit range is an error. -/
def integer (i : Int) : Except DbError Int :=
  if fitsInteger i then .ok i else .error DbError.ErrOutOfRange

/-- The character U+0000, the zero byte of a Go string. -/
def NUL : Char := Char.ofNat 0

/-- A parameter assigned to a `VARCHAR(n)` column.  The store refuses a text
parameter that holds a zero byte.  A text of more than `n` characters is an
error, unless all the excess characters are spaces, which are cut off. -/
def varchar (n : Nat) (s : String) : Except DbError String :=
  if NUL ∈ s.data then .error DbError.ErrInvalidByte
  else if s.length ≤ n then .ok s
  else if (s.data.drop n).all (fun c => c = ' ') then .ok ⟨s.data.take n⟩
  else .error DbError.ErrTooLong

/-- The rows in ascending order of id (`ORDER BY ID ASC`). -/
def orderByID (rows : List Row) : List Row :=
  rows.insertionSort (fun x y => x.id ≤ y.id)

/-- What the store does with a statement: the table afterwards, the result
set, and the number of rows affected; or the error, with the table as it
was. -/
def execute (rows : List Row) : Stmt → Except DbError (List Row × List (List Value) × Nat)
  | Stmt.selectAll => .ok (rows, (orderByID rows).map Row.columns, rows.length)
  | Stmt.selectByID ID =>
    match integer ID with
    | .error e => .error e
    | .ok ID =>
      let found := rows.filter (fun row => row.id = ID)
      .ok (rows, found.map Row.columns, found.length)
  | Stmt.insert ID Name Description =>
    match integer ID, varchar 500 Name, varchar 1000 Description with
    | .ok ID, .ok Name, .ok Description =>
      if rows.any (fun row => row.id = ID) then .error DbError.ErrUniqueViolation
      else .ok (rows ++ [⟨ID, Name, some Description⟩], [], 1)
    | .error e, _, _ => .error e
    | _, .error e, _ => .error e
    | _, _, .error e => .error e
  | Stmt.delete ID =>
    match integer ID with
    | .error e => .error e
    | .ok ID =>
      .ok (rows.filter (fun row => row.id ≠ ID), [],
        (rows.filter (fun row => row.id = ID)).length)
  | Stmt.update ID Name Description =>
    match integer ID, varchar 500 Name, varchar 1000 Description with
    | .ok ID, .ok Name, .ok Description =>
      .ok (rows.map (fun row => if row.id = ID then ⟨row.id, Name, some Description⟩ else row),
        [], (rows.filter (fun row => row.id = ID)).length)
    | .error e, _, _ => .error e
    | _, .error e, _ => .error e
    | _, _, .error e => .error e

/-- Go `db.Query(query, args...)`: the statement is sent, and its result set
or its error comes back. -/
def DB.Query (db : DB) (query : Stmt) : DB × Except DbError (List (List Value)) :=
  match execute db.rows query with
  | .error e => (⟨db.rows, db.log ++ [query]⟩, .error e)
  | .ok (rows, result, _) => (⟨rows, db.log ++ [query]⟩, .ok result)

/-- Go `db.QueryRow(query, args...)`: like `Query`; the error is kept for
`Scan`. -/
def DB.QueryRow (db : DB) (query : Stmt) : DB × Except DbError (List (List Value)) :=
  db.Query query

/-- Go `db.Exec(query, args...)`: the statement is sent; the result carries the
number of rows affected. -/
def DB.Exec (db : DB) (query : Stmt) : DB × Except DbError Nat :=
  match execute db.rows query with
  | .error e => (⟨db.rows, db.log ++ [query]⟩, .error e)
  | .ok (rows, _, n) => (⟨rows, db.log ++ [query]⟩, .ok n)

/-- Go `result.RowsAffected()`; the driver never fails here. -/
def RowsAffected (result : Nat) : Except DbError Int := .ok (result : Int)

/-- The conversion of `Scan` into an `*int` destination. -/
def scanInt : Value → Except DbError Int
  | Value.int i => .ok i
  | Value.text s =>
    match ParseInt s 10 64 with
    | (i, none) => .ok i
    | (_, some _) => .error DbError.ErrScan
  | Value.null => .error DbError.ErrScan

/-- The conversion of `Scan` into a `*string` destination. -/
def scanString : Value → Except DbError String
  | Value.int i => .ok (formatInt i)
  | Value.text s => .ok s
  | Value.null => .error DbError.ErrScan

/-- Go `rows.Scan(&a, &b, &c)` with `a` an `int` and `b`, `c` strings: the
columns are assigned to the destinations by position. -/
def Scan (columns : List Value) : Except DbError (Int × String × String) :=
  match columns with
  | [c1, c2, c3] =>
    match scanInt c1, scanString c2, scanString c3 with
    | .ok a, .ok b, .ok c => .ok (a, b, c)
    | _, _, _ => .error DbError.ErrScan
  | _ => .error DbError.ErrScan

/-- Go `row.Scan(&a, &b, &c)` on the `*sql.Row` of `QueryRow`: the deferred
error, `sql.ErrNoRows` on an empty result, else the scan of the first row. -/
def RowScan (row : Except DbError (List (List Value))) : Except DbError (Int × String × String) :=
  match row with
  | .error e => .error e
  | .ok [] => .error DbError.ErrNoRows
  | .ok (columns :: _) => Scan columns

/-! ## The program -/

/-- The struct `Project` of `main.go`. -/
structure Project where
  ID : Int
  Name : String
  Description : String
deriving DecidableEq, Repr

/-- Go `json.Marshal(pr)` for a `*Project`: the fields in order under their
tags `id`, `name` and `description,omitempty`. -/
def marshalProject (pr : Project) : String :=
  "\x7b\"id\":" ++ formatInt pr.ID ++ ",\"name\":" ++ marshalString pr.Name ++
    (if pr.Description = "" then "" else ",\"description\":" ++ marshalString pr.Description) ++
    "\x7d"

/-- Go `json.Marshal(prjs)` for a non-nil `[]*Project`. -/
def marshalProjects (prjs : List Project) : String :=
  "[" ++ ",".intercalate (prjs.map marshalProject) ++ "]"

/-- The loop `for rows.Next()` of `projectsIndex`, with the slice `prjs`. -/
def indexLoop : List (List Value) → List Project → Except DbError (List Project)
  | [], prjs => .ok prjs
  | columns :: rows, prjs =>
    match Scan columns with
    | .error e => .error e
    | .ok (ID, Description, Name) => indexLoop rows (prjs ++ [⟨ID, Name, Description⟩])

/-- The handler `projectsIndex` of `main.go`. -/
def projectsIndex (db : DB) (r : Request) : DB × Response :=
  if r.Method ≠ "GET" then (db, Error (StatusText 405) 405)
  else
    match db.Query Stmt.selectAll with
    | (db, .error _) => (db, Error (StatusText 500) 500)
    | (db, .ok rows) =>
      match indexLoop rows [] with
      | .error _ => (db, Error (StatusText 500) 500)
      | .ok prjs =>
        let out := marshalProjects prjs
        (db, Fprintf out [])

/-- The handler `projectsShow` of `main.go`. -/
def projectsShow (db : DB) (r : Request) : DB × Response :=
  if r.Method ≠ "GET" then (db, Error (StatusText 405) 405)
  else
    let ID := (Atoi (r.FormValue "ID")).1
    if ID = 0 then (db, Error (StatusText 400) 400)
    else
      match db.QueryRow (Stmt.selectByID ID) with
      | (db, row) =>
        match RowScan row with
        | .error DbError.ErrNoRows => (db, NotFound)
        | .error _ => (db, Error (StatusText 500) 500)
        | .ok (ID, Name, Description) =>
          let pr : Project := ⟨ID, Name, Description⟩
          let out := marshalProject pr
          (db, Fprintf out [])

/-- The handler `projectsCreate` of `main.go`. -/
def projectsCreate (db : DB) (r : Request) : DB × Response :=
  if r.Method ≠ "POST" then (db, Error (StatusText 405) 405)
  else
    match ParseInt (r.FormValue "ID") 10 64 with
    | (_, some _) => (db, Error (StatusText 400) 400)
    | (ID, none) =>
      let Name := r.FormValue "Name"
      let Description := r.FormValue "Description"
      if Name = "" ∨ Description = "" then (db, Error (StatusText 400) 400)
      else
        match db.Exec (Stmt.insert ID Name Description) with
        | (db, .error _) => (db, Error (StatusText 500) 500)
        | (db, .ok result) =>
          match RowsAffected result with
          | .error _ => (db, Error (StatusText 500) 500)
          | .ok rowsAffected =>
            let out := marshalString Name
            (db, Fprintf "Project %v created successfully (%v row affected)\n"
              [Operand.string out, Operand.int64 rowsAffected])

/-- The handler `projectsDelete` of `main.go`. -/
def projectsDelete (db : DB) (r : Request) : DB × Response :=
  if r.Method ≠ "DELETE" then (db, Error (StatusText 405) 405)
  else
    match ParseInt (r.FormValue "ID") 10 64 with
    | (_, some _) => (db, Error (StatusText 400) 400)
    | (ID, none) =>
      match db.Exec (Stmt.delete ID) with
      | (db, .error _) => (db, Error (StatusText 500) 500)
      | (db, .ok result) =>
        match RowsAffected result with
        | .error _ => (db, Error (StatusText 500) 500)
        | .ok rowsAffected =>
          let out := formatInt ID
          (db, Fprintf "Project %v deleted successfully (%v row affected)\n"
            [Operand.string out, Operand.int64 rowsAffected])

/-- The handler `projectsUpdate` of `main.go`. -/
def projectsUpdate (db : DB) (r : Request) : DB × Response :=
  if r.Method ≠ "PUT" then (db, Error (StatusText 405) 405)
  else
    match ParseInt (r.FormValue "ID") 10 64 with
    | (_, some _) => (db, Error (StatusText 400) 400)
    | (ID, none) =>
      let Name := r.FormValue "Name"
      let Description := r.FormValue "Description"
      if Name = "" ∨ Description = "" then (db, Error (StatusText 400) 400)
      else
        match db.Exec (Stmt.update ID Name Description) with
        | (db, .error _) => (db, Error (StatusText 500) 500)
        | (db, .ok result) =>
          match RowsAffected result with
          | .error _ => (db, Error (StatusText 500) 500)
          | .ok rowsAffected =>
            let out := formatInt ID
            (db, Fprintf "Project %v updated successfully, (%v row affected)\n"
              [Operand.string out, Operand.int64 rowsAffected])

/-- The routes registered in `main`, on the default mux: a request whose path
is exactly one of the five patterns goes to its handler.  What the mux itself
answers on any other path (a redirect to the cleaned path, or its 404) is not
part of this program and is the parameter `other`. -/
def serve (other : String → Request → Response) (db : DB) (path : String) (r : Request) :
    DB × Response :=
  if path = "/projects" then projectsIndex db r
  else if path = "/projects/show" then projectsShow db r
  else if path = "/projects/create" then projectsCreate db r
  else if path = "/projects/delete" then projectsDelete db r
  else if path = "/projects/update" then projectsUpdate db r
  else (db, other path r)

/-! ## Formatting lemmas -/

theorem Sprintf_created (s : String) (n : Int) :
    Sprintf "Project %v created successfully (%v row affected)\n"
        [Operand.string s, Operand.int64 n]
      = some ("Project " ++ s ++ " created successfully (" ++ formatInt n ++ " row affected)\n") := by
  simp [Sprintf, formatLoop, directive, scanFlags, printArg, String.length]

theorem Sprintf_deleted (s : String) (n : Int) :
    Sprintf "Project %v deleted successfully (%v row affected)\n"
        [Operand.string s, Operand.int64 n]
      = some ("Project " ++ s ++ " deleted successfully (" ++ formatInt n ++ " row affected)\n") := by
  simp [Sprintf, formatLoop, directive, scanFlags, printArg, String.length]

theorem Sprintf_updated (s : String) (n : Int) :
    Sprintf "Project %v updated successfully, (%v row affected)\n"
        [Operand.string s, Operand.int64 n]
      = some ("Project " ++ s ++ " updated successfully, (" ++ formatInt n ++ " row affected)\n") := by
  simp [Sprintf, formatLoop, directive, scanFlags, printArg, String.length]

theorem formatInt_zero : formatInt 0 = "0" := by decide

theorem formatInt_one : formatInt 1 = "1" := by decide

/-! ## Formatting with no operands always yields a text -/

theorem parsenumLoop_length (l : List Char) (num : Nat) (isnum : Bool) :
    (parsenumLoop l num isnum).2.2.length ≤ l.length := by
  induction l generalizing num isnum with
  | nil => simp [parsenumLoop]
  | cons c rest ih =>
    unfold parsenumLoop
    split_ifs
    · simp
    · exact Nat.le_succ_of_le (ih _ _)
    · simp

theorem scanFlags_length (l : List Char) (f : fmtFlags) :
    (scanFlags l f).2.length ≤ l.length := by
  induction l generalizing f with
  | nil => simp [scanFlags]
  | cons c rest ih =>
    unfold scanFlags
    split_ifs
    · exact Nat.le_succ_of_le (ih _)
    · exact Nat.le_succ_of_le (ih _)
    · exact Nat.le_succ_of_le (ih _)
    · exact Nat.le_succ_of_le (ih _)
    · exact Nat.le_succ_of_le (ih _)
    · simp

theorem parseArgNumber_length (tl : List Char) :
    (parseArgNumber tl).2.1.length ≤ tl.length := by
  unfold parseArgNumber
  split_ifs
  · simp
  · have hd := (List.dropWhile_sublist (l := tl) (fun c => c != ']')).length_le
    split
    · simp
    · rename_i after heq
      rw [heq] at hd
      have : after.length ≤ tl.length := by
        simp only [List.length_cons] at hd
        omega
      dsimp only
      rcases parsenum (List.takeWhile (fun c => c != ']') tl) with ⟨width, ok, rest⟩
      dsimp only
      split_ifs <;> simpa using this

theorem argNumber_length (p : pp) (argNum : Nat) (format : List Char) (numArgs : Nat) :
    (argNumber p argNum format numArgs).2.2.1.length ≤ format.length := by
  unfold argNumber
  split
  · rename_i tl
    have h := parseArgNumber_length tl
    revert h
    rcases parseArgNumber tl with ⟨index, after, ok⟩
    intro h
    dsimp only at h ⊢
    simp only [List.length_cons]
    split_ifs <;> dsimp only <;> omega
  · simp

theorem scanWidth_length (a : List Operand) (p : pp) (argNum : Nat) (format : List Char)
    (afterIndex : Bool) :
    (scanWidth a p argNum format afterIndex).2.2.1.length ≤ format.length := by
  unfold scanWidth
  split
  · rcases intFromArg a argNum with ⟨wid, widPresent, n⟩
    simp
  · have h := parsenumLoop_length format 0 false
    revert h
    unfold parsenum
    rcases parsenumLoop format 0 false with ⟨wid, widPresent, rest⟩
    intro h
    simpa using h

theorem scanPrec_length (a : List Operand) (p : pp) (argNum : Nat) (format : List Char)
    (afterIndex : Bool) :
    (scanPrec a p argNum format afterIndex).2.2.1.length ≤ format.length := by
  unfold scanPrec
  split
  · rename_i next more
    dsimp only
    have h1 := argNumber_length (if afterIndex = true then { p with goodArgNum := false } else p)
      argNum (next :: more) a.length
    revert h1
    rcases argNumber (if afterIndex = true then { p with goodArgNum := false } else p)
      argNum (next :: more) a.length with ⟨p1, n1, f1, a1⟩
    intro h1
    dsimp only at h1 ⊢
    split
    · rename_i rest2
      rcases intFromArg a n1 with ⟨prec, precPresent, n⟩
      simp only [List.length_cons] at h1 ⊢
      omega
    · have h2 := parsenumLoop_length f1 0 false
      revert h2
      unfold parsenum
      rcases parsenumLoop f1 0 false with ⟨prec, precPresent, rest3⟩
      intro h2
      simp only [List.length_cons] at h1 h2 ⊢
      omega
  · simp

theorem printVerb_nil (p : pp) (argNum : Nat) (verb : Char) :
    ∃ r, printVerb [] p argNum verb = some r := by
  unfold printVerb
  split_ifs <;> simp

theorem directiveTail_nil (p : pp) (argNum : Nat) (format : List Char) :
    ∃ r, directiveTail [] p argNum format = some r ∧ r.2.2.length ≤ format.length := by
  obtain ⟨p1, n1, f2, a1, e1⟩ : ∃ p1 n1 f2 a1,
      argNumber p argNum format ([] : List Operand).length = (p1, n1, f2, a1) :=
    ⟨_, _, _, _, rfl⟩
  have h1 := argNumber_length p argNum format ([] : List Operand).length
  rw [e1] at h1
  obtain ⟨p2, n2, f3, a2, e2⟩ : ∃ p2 n2 f3 a2,
      scanWidth [] p1 n1 f2 a1 = (p2, n2, f3, a2) := ⟨_, _, _, _, rfl⟩
  have h2 := scanWidth_length [] p1 n1 f2 a1
  rw [e2] at h2
  obtain ⟨p3, n3, f4, a3, e3⟩ : ∃ p3 n3 f4 a3,
      scanPrec [] p2 n2 f3 a2 = (p3, n3, f4, a3) := ⟨_, _, _, _, rfl⟩
  have h3 := scanPrec_length [] p2 n2 f3 a2
  rw [e3] at h3
  obtain ⟨p4, n4, f5, a4, e4⟩ : ∃ p4 n4 f5 a4,
      (if a3 = true then (p3, n3, f4, a3)
        else argNumber p3 n3 f4 ([] : List Operand).length) = (p4, n4, f5, a4) :=
    ⟨_, _, _, _, rfl⟩
  have h4 : f5.length ≤ f4.length := by
    have h := argNumber_length p3 n3 f4 ([] : List Operand).length
    split_ifs at e4
    · simp only [Prod.mk.injEq] at e4
      rw [← e4.2.2.1]
    · rw [e4] at h
      exact h
  unfold directiveTail
  simp only [e1, e2, e3, e4]
  dsimp only at h1 h2 h3
  cases f5 with
  | nil => exact ⟨_, rfl, by simp⟩
  | cons verb rest =>
    obtain ⟨r, hr⟩ := printVerb_nil p4 n4 verb
    refine ⟨(r.1, r.2, rest), by simp [hr], ?_⟩
    simp only [List.length_cons] at h4 ⊢
    omega

theorem directive_nil (p : pp) (argNum : Nat) (format : List Char) :
    ∃ r, directive [] p argNum format = some r ∧ r.2.2.length ≤ format.length := by
  obtain ⟨f, format1, e0⟩ : ∃ f format1, scanFlags format {} = (f, format1) := ⟨_, _, rfl⟩
  have h0 := scanFlags_length format {}
  rw [e0] at h0
  dsimp only at h0
  obtain ⟨r, hr, hlen⟩ := directiveTail_nil { p with fmt := f } argNum format1
  unfold directive
  simp only [e0]
  cases format1 with
  | nil => exact ⟨r, hr, by omega⟩
  | cons c rest =>
    dsimp only
    rw [if_neg (by simp)]
    exact ⟨r, hr, by omega⟩

theorem formatLoop_nil (fuel : Nat) (format : List Char) (p : pp) (argNum : Nat)
    (h : format.length < fuel) : ∃ r, formatLoop [] fuel format p argNum = some r := by
  induction fuel generalizing format p argNum with
  | zero => omega
  | succ fuel ih =>
    unfold formatLoop
    have hd := (List.dropWhile_sublist (l := format) (fun c => c != '%')).length_le
    dsimp only
    split
    · exact ⟨_, rfl⟩
    · rename_i rest heq
      rw [heq] at hd
      simp only [List.length_cons] at hd
      obtain ⟨⟨p1, n1, rest1⟩, hr, hlen⟩ := directive_nil
        { buf := p.buf ++ String.mk (format.takeWhile (fun c => c != '%')), fmt := p.fmt,
          reordered := p.reordered, goodArgNum := true } argNum rest
      rw [hr]
      dsimp only at hlen ⊢
      exact ih _ _ _ (by omega)

/-- A formatting call with no operands, as in `fmt.Fprintf(w, string(out))`,
is inside the model of `Sprintf` for every format. -/
theorem Sprintf_nil (format : String) : ∃ text, Sprintf format [] = some text := by
  unfold Sprintf
  obtain ⟨⟨p, n⟩, hr⟩ := formatLoop_nil (format.length + 1) format.data {} 0
    (Nat.lt_succ_self format.data.length)
  rw [hr]
  dsimp only
  rw [if_neg (by simp)]
  exact ⟨_, rfl⟩

/-! ## Store lemmas -/

theorem filter_id_eq_nil (rows : List Row) (ID : Int) (h : ∀ row ∈ rows, row.id ≠ ID) :
    rows.filter (fun row => row.id = ID) = [] := by
  simp only [List.filter_eq_nil_iff]
  intro row hrow
  simpa using h row hrow

theorem filter_id_ne_self (rows : List Row) (ID : Int) (h : ∀ row ∈ rows, row.id ≠ ID) :
    rows.filter (fun row => row.id ≠ ID) = rows := by
  simp only [List.filter_eq_self]
  intro row hrow
  simpa using h row hrow

theorem any_id_eq_false (rows : List Row) (ID : Int) (h : ∀ row ∈ rows, row.id ≠ ID) :
    rows.any (fun row => row.id = ID) = false := by
  simp only [List.any_eq_false]
  intro row hrow
  simpa using h row hrow

theorem any_id_eq_true (rows : List Row) (ID : Int) (row : Row) (hrow : row ∈ rows)
    (h : row.id = ID) : rows.any (fun row => row.id = ID) = true := by
  simp only [List.any_eq_true]
  exact ⟨row, hrow, by simpa using h⟩

theorem filter_id_of_primaryKey (rows : List Row) (row : Row) (hpk : PrimaryKey rows)
    (hrow : row ∈ rows) :
    rows.filter (fun x => x.id ≠ row.id) = rows.erase row ∧
      (rows.filter (fun x => x.id = row.id)).length = 1 := by
  induction rows with
  | nil => simp at hrow
  | cons x xs ih =>
    have hx : ∀ y ∈ xs, y.id ≠ x.id := by
      intro y hy hxy
      have h1 : x.id ∉ xs.map Row.id := (List.nodup_cons.mp hpk).1
      exact h1 (hxy ▸ List.mem_map_of_mem Row.id hy)
    have hxs : PrimaryKey xs := (List.nodup_cons.mp hpk).2
    by_cases hxr : x = row
    · subst hxr
      simp [filter_id_eq_nil xs x.id hx]
      exact hx
    · have hmem : row ∈ xs := by
        rcases List.mem_cons.mp hrow with h | h
        · exact absurd h.symm hxr
        · exact h
      have hne : x.id ≠ row.id := fun h => hx row hmem h.symm
      have := ih hxs hmem
      simp [hne, hxr, this.2, List.erase_cons_tail]
      simpa using this.1

theorem integer_ok (i : Int) (h : fitsInteger i) : integer i = .ok i := by
  simp [integer, h]

theorem integer_error (i : Int) (h : ¬ fitsInteger i) :
    integer i = .error DbError.ErrOutOfRange := by
  simp [integer, h]

theorem integer_eq_ok (i j : Int) (h : integer i = .ok j) : j = i ∧ fitsInteger i := by
  unfold integer at h
  by_cases hf : fitsInteger i
  · rw [if_pos hf] at h
    injection h with h
    exact ⟨h.symm, hf⟩
  · rw [if_neg hf] at h
    cases h

theorem varchar_ok (n : Nat) (s : String) (hnul : NUL ∉ s.data) (h : s.length ≤ n) :
    varchar n s = .ok s := by
  simp [varchar, hnul, h]

theorem varchar_nul (n : Nat) (s : String) (hnul : NUL ∈ s.data) :
    varchar n s = .error DbError.ErrInvalidByte := by
  simp [varchar, hnul]

theorem execute_insert (rows : List Row) (ID : Int) (Name Description : String)
    (hfit : fitsInteger ID) (hn0 : NUL ∉ Name.data) (hd0 : NUL ∉ Description.data)
    (hn : Name.length ≤ 500) (hd : Description.length ≤ 1000)
    (hnew : ∀ row ∈ rows, row.id ≠ ID) :
    execute rows (Stmt.insert ID Name Description)
      = .ok (rows ++ [⟨ID, Name, some Description⟩], [], 1) := by
  have hex : ¬ ∃ x ∈ rows, x.id = ID := fun ⟨x, hx, h⟩ => hnew x hx h
  simp [execute, integer_ok _ hfit, varchar_ok _ _ hn0 hn, varchar_ok _ _ hd0 hd, hex]

theorem execute_update (rows : List Row) (ID : Int) (Name Description : String)
    (hfit : fitsInteger ID) (hn0 : NUL ∉ Name.data) (hd0 : NUL ∉ Description.data)
    (hn : Name.length ≤ 500) (hd : Description.length ≤ 1000) :
    execute rows (Stmt.update ID Name Description)
      = .ok (rows.map (fun row => if row.id = ID then ⟨row.id, Name, some Description⟩ else row),
          [], (rows.filter (fun row => row.id = ID)).length) := by
  simp [execute, integer_ok _ hfit, varchar_ok _ _ hn0 hn, varchar_ok _ _ hd0 hd]

theorem execute_delete (rows : List Row) (ID : Int) (hfit : fitsInteger ID) :
    execute rows (Stmt.delete ID)
      = .ok (rows.filter (fun row => row.id ≠ ID), [],
          (rows.filter (fun row => row.id = ID)).length) := by
  simp [execute, integer_ok _ hfit]

theorem execute_selectByID (rows : List Row) (ID : Int) (hfit : fitsInteger ID) :
    execute rows (Stmt.selectByID ID)
      = .ok (rows, (rows.filter (fun row => row.id = ID)).map Row.columns,
          (rows.filter (fun row => row.id = ID)).length) := by
  simp [execute, integer_ok _ hfit]

/-! ## The primary key is an invariant of the program -/

theorem execute_primaryKey (rows rows1 : List Row) (query : Stmt) (result : List (List Value))
    (n : Nat) (h : execute rows query = .ok (rows1, result, n)) (hpk : PrimaryKey rows) :
    PrimaryKey rows1 := by
  cases query with
  | selectAll =>
    simp only [execute, Except.ok.injEq, Prod.mk.injEq] at h
    exact h.1 ▸ hpk
  | selectByID ID =>
    rcases hx : integer ID with e | i <;> simp only [execute, hx] at h
    · cases h
    · simp only [Except.ok.injEq, Prod.mk.injEq] at h
      exact h.1 ▸ hpk
  | insert ID Name Description =>
    rcases hx : integer ID with e | i <;> rcases hy : varchar 500 Name with e | name <;>
      rcases hz : varchar 1000 Description with e | description <;>
      simp only [execute, hx, hy, hz] at h <;> try cases h
    split_ifs at h with hany
    simp only [Except.ok.injEq, Prod.mk.injEq] at h
    rw [← h.1]
    unfold PrimaryKey at hpk ⊢
    simp only [List.map_append, List.map_cons, List.map_nil]
    refine List.Nodup.append hpk (List.nodup_singleton _) ?_
    intro x hx hx1
    rw [List.mem_singleton] at hx1
    obtain ⟨row, hrow, hid⟩ := List.mem_map.mp hx
    apply hany
    simp only [List.any_eq_true, decide_eq_true_eq]
    exact ⟨row, hrow, hid.trans hx1⟩
  | delete ID =>
    rcases hx : integer ID with e | i <;> simp only [execute, hx] at h
    · cases h
    · simp only [Except.ok.injEq, Prod.mk.injEq] at h
      rw [← h.1]
      exact List.Nodup.sublist (List.Sublist.map _ (List.filter_sublist _)) hpk
  | update ID Name Description =>
    rcases hx : integer ID with e | i <;> rcases hy : varchar 500 Name with e | name <;>
      rcases hz : varchar 1000 Description with e | description <;>
      simp only [execute, hx, hy, hz] at h <;> try cases h
    unfold PrimaryKey at hpk ⊢
    have hmap : (rows.map (fun row =>
        if row.id = i then (⟨row.id, name, some description⟩ : Row) else row)).map Row.id
        = rows.map Row.id := by
      rw [List.map_map]
      apply List.map_congr_left
      intro row _
      by_cases hr : row.id = i <;> simp [hr]
    rw [hmap]
    exact hpk

theorem Exec_primaryKey (db : DB) (query : Stmt) (hpk : PrimaryKey db.rows) :
    PrimaryKey (db.Exec query).1.rows := by
  unfold DB.Exec
  rcases h : execute db.rows query with e | ⟨rows1, result, n⟩
  · exact hpk
  · exact execute_primaryKey _ _ _ _ _ h hpk

theorem Query_primaryKey (db : DB) (query : Stmt) (hpk : PrimaryKey db.rows) :
    PrimaryKey (db.Query query).1.rows := by
  unfold DB.Query
  rcases h : execute db.rows query with e | ⟨rows1, result, n⟩
  · exact hpk
  · exact execute_primaryKey _ _ _ _ _ h hpk

theorem projectsIndex_primaryKey (db : DB) (r : Request) (hpk : PrimaryKey db.rows) :
    PrimaryKey (projectsIndex db r).1.rows := by
  have h := Query_primaryKey db Stmt.selectAll hpk
  unfold projectsIndex
  split_ifs
  · exact hpk
  · revert h
    rcases db.Query Stmt.selectAll with ⟨db1, e | rows⟩
    · exact fun h => h
    · dsimp only
      rcases indexLoop rows [] with e | prjs
      · exact fun h => h
      · exact fun h => h

theorem projectsShow_primaryKey (db : DB) (r : Request) (hpk : PrimaryKey db.rows) :
    PrimaryKey (projectsShow db r).1.rows := by
  unfold projectsShow
  split_ifs
  · exact hpk
  · dsimp only
    split_ifs
    · exact hpk
    · have h := Query_primaryKey db (Stmt.selectByID (Atoi (r.FormValue "ID")).1) hpk
      unfold DB.QueryRow
      revert h
      rcases db.Query (Stmt.selectByID (Atoi (r.FormValue "ID")).1) with ⟨db1, row⟩
      intro h
      dsimp only
      split <;> exact h

theorem projectsCreate_primaryKey (db : DB) (r : Request) (hpk : PrimaryKey db.rows) :
    PrimaryKey (projectsCreate db r).1.rows := by
  unfold projectsCreate
  split_ifs
  · exact hpk
  · rcases ParseInt (r.FormValue "ID") 10 64 with ⟨ID, _ | e⟩
    · dsimp only
      split_ifs
      · exact hpk
      · have h := Exec_primaryKey db
          (Stmt.insert ID (r.FormValue "Name") (r.FormValue "Description")) hpk
        revert h
        rcases db.Exec (Stmt.insert ID (r.FormValue "Name") (r.FormValue "Description"))
          with ⟨db1, e | result⟩
        · exact fun h => h
        · exact fun h => h
    · exact hpk

theorem projectsDelete_primaryKey (db : DB) (r : Request) (hpk : PrimaryKey db.rows) :
    PrimaryKey (projectsDelete db r).1.rows := by
  unfold projectsDelete
  split_ifs
  · exact hpk
  · rcases ParseInt (r.FormValue "ID") 10 64 with ⟨ID, _ | e⟩
    · have h := Exec_primaryKey db (Stmt.delete ID) hpk
      dsimp only
      revert h
      rcases db.Exec (Stmt.delete ID) with ⟨db1, e | result⟩
      · exact fun h => h
      · exact fun h => h
    · exact hpk

theorem projectsUpdate_primaryKey (db : DB) (r : Request) (hpk : PrimaryKey db.rows) :
    PrimaryKey (projectsUpdate db r).1.rows := by
  unfold projectsUpdate
  split_ifs
  · exact hpk
  · rcases ParseInt (r.FormValue "ID") 10 64 with ⟨ID, _ | e⟩
    · dsimp only
      split_ifs
      · exact hpk
      · have h := Exec_primaryKey db
          (Stmt.update ID (r.FormValue "Name") (r.FormValue "Description")) hpk
        revert h
        rcases db.Exec (Stmt.update ID (r.FormValue "Name") (r.FormValue "Description"))
          with ⟨db1, e | result⟩
        · exact fun h => h
        · exact fun h => h
    · exact hpk

/-- Every request leaves a store that respects its primary key in a state that
respects it: the stores the program can reach from an empty table all do. -/
theorem serve_primaryKey (other : String → Request → Response) (db : DB) (path : String)
    (r : Request) (hpk : PrimaryKey db.rows) :
    PrimaryKey (serve other db path r).1.rows := by
  unfold serve
  split_ifs
  · exact projectsIndex_primaryKey db r hpk
  · exact projectsShow_primaryKey db r hpk
  · exact projectsCreate_primaryKey db r hpk
  · exact projectsDelete_primaryKey db r hpk
  · exact projectsUpdate_primaryKey db r hpk
  · exact hpk

/-! ## The bad-request guard of `projectsShow` -/

theorem ParseInt_syntax_value (s : String) (base bitSize : Nat)
    (h : (ParseInt s base bitSize).2 = some NumError.ErrSyntax) :
    (ParseInt s base bitSize).1 = 0 := by
  unfold ParseInt at h ⊢
  by_cases hs : s = ""
  · simp [hs]
  · rw [if_neg hs] at h ⊢
    dsimp only at h ⊢
    revert h
    generalize ParseUint _ base bitSize = q
    rcases q with ⟨un, _ | e⟩
    · dsimp only
      split_ifs <;> simp
    · cases e <;> dsimp only <;> try simp
      split_ifs <;> simp

theorem Atoi_syntax_value (s : String) (h : (Atoi s).2 = some NumError.ErrSyntax) :
    (Atoi s).1 = 0 := by
  unfold Atoi at h ⊢
  dsimp only at h ⊢
  split_ifs at h ⊢
  all_goals first
    | rfl
    | exact ParseInt_syntax_value s 10 0 h
    | (revert h
       generalize atoiLoop _ 0 = q
       cases q <;> simp)

/-- A GET to `/projects/show` whose ID `Atoi` refuses with a syntax error (a
missing ID among them), or reads as zero, is answered 400 and sends nothing to
the store.  An ID refused with a range error is not covered: `Atoi` returns
the largest integer of its sign for it, also when other text follows the
digits that overflow. -/
theorem projectsShow_bad_request (db : DB) (r : Request) (hm : r.Method = "GET")
    (h : (Atoi (r.FormValue "ID")).2 = some NumError.ErrSyntax ∨ (Atoi (r.FormValue "ID")).1 = 0) :
    projectsShow db r = (db, ⟨400, "Bad Request\n"⟩) := by
  have h0 : (Atoi (r.FormValue "ID")).1 = 0 := by
    rcases h with h | h
    · exact Atoi_syntax_value _ h
    · exact h
  simp [projectsShow, hm, h0, Error, StatusText]
/-! ## Checks of the library embeddings on concrete inputs -/

example : Atoi "10" = (10, none) := by decide
example : Atoi "-7" = (-7, none) := by decide
example : Atoi "+0" = (0, none) := by decide
example : Atoi "" = (0, some NumError.ErrSyntax) := by decide
example : Atoi "1x" = (0, some NumError.ErrSyntax) := by decide
example : Atoi "99999999999999999999" = (9223372036854775807, some NumError.ErrRange) := by
  decide
example : Atoi "-9223372036854775809" = (-9223372036854775808, some NumError.ErrRange) := by
  decide
example : ParseInt "-9223372036854775808" 10 64 = (-9223372036854775808, none) := by decide
example : ParseInt "9223372036854775808" 10 64
    = (9223372036854775807, some NumError.ErrRange) := by decide
example : marshalString "a<b\n\"" = "\"a\\u003cb\\n\\\"\"" := by decide
example : formatInt (-12) = "-12" := by decide
example : Sprintf "a%%b%" [] = some "a%b%!(NOVERB)" := by decide
example : Sprintf "%[1]d %*d %.3q|%[x]v" []
    = some "%!d(BADINDEX) %!(BADWIDTH)%!d(MISSING) %!q(MISSING)|%!v(BADINDEX)" := by decide
example : Sprintf "x" [Operand.string "A", Operand.int64 1]
    = some "x%!(EXTRA string=A, int64=1)" := by decide
example : varchar 3 "ab  " = .ok "ab " := by rfl
example : varchar 3 "abcd" = .error DbError.ErrTooLong := by rfl
example : varchar 3 ⟨['a', NUL]⟩ = .error DbError.ErrInvalidByte := by rfl
example : Sprintf "%." [] = some "%!.(MISSING)" := by decide
example : Sprintf "%.3" [] = some "%!(NOVERB)" := by decide
example : Atoi "99999999999999999999x" = (9223372036854775807, some NumError.ErrRange) := by
  decide

/-! ## The claims -/

/-- C4: a POST to `/projects/create` whose Name or Description is missing or
empty is answered 400, whatever its ID is, and the store is as before: its
rows are the same and no statement was sent to it. -/
theorem projectsCreate_empty_field (db : DB) (r : Request) (hm : r.Method = "POST")
    (h : r.FormValue "Name" = "" ∨ r.FormValue "Description" = "") :
    (projectsCreate db r).2.status = 400 ∧ (projectsCreate db r).1 = db := by
  unfold projectsCreate
  rw [if_neg (by simp [hm])]
  rcases hp : ParseInt (r.FormValue "ID") 10 64 with ⟨ID, _ | e⟩
  · simp [h, Error]
  · simp [Error]

/-- C4 at a request with no Name, on a store of one row. -/
theorem projectsCreate_empty_field_witness :
    (projectsCreate ⟨[⟨1, "A", some "B"⟩], []⟩
        ⟨"POST", [("ID", "2"), ("Description", "D")]⟩).2.status = 400 ∧
      (projectsCreate ⟨[⟨1, "A", some "B"⟩], []⟩
        ⟨"POST", [("ID", "2"), ("Description", "D")]⟩).1 = ⟨[⟨1, "A", some "B"⟩], []⟩ :=
  projectsCreate_empty_field _ _ (by decide) (by decide)

/-- C8: on each of the five routes a request with another method than the
route's own (GET, GET, POST, DELETE, PUT) is answered 405, whatever its
parameters are, and the store is as before: same rows, no statement sent. -/
theorem wrong_method_405 (other : String → Request → Response) (db : DB) (r : Request) :
    (r.Method ≠ "GET" →
      serve other db "/projects" r = (db, ⟨405, "Method Not Allowed\n"⟩)) ∧
    (r.Method ≠ "GET" →
      serve other db "/projects/show" r = (db, ⟨405, "Method Not Allowed\n"⟩)) ∧
    (r.Method ≠ "POST" →
      serve other db "/projects/create" r = (db, ⟨405, "Method Not Allowed\n"⟩)) ∧
    (r.Method ≠ "DELETE" →
      serve other db "/projects/delete" r = (db, ⟨405, "Method Not Allowed\n"⟩)) ∧
    (r.Method ≠ "PUT" →
      serve other db "/projects/update" r = (db, ⟨405, "Method Not Allowed\n"⟩)) := by
  refine ⟨?_, ?_, ?_, ?_, ?_⟩ <;> intro h
  · simp [serve, projectsIndex, h, Error, StatusText]
  · simp [serve, projectsShow, h, Error, StatusText]
  · simp [serve, projectsCreate, h, Error, StatusText]
  · simp [serve, projectsDelete, h, Error, StatusText]
  · simp [serve, projectsUpdate, h, Error, StatusText]

/-- C8 at a DELETE sent to `/projects/create`. -/
theorem wrong_method_405_witness :
    serve (fun _ _ => NotFound) ⟨[⟨1, "A", some "B"⟩], []⟩ "/projects/create"
        ⟨"DELETE", [("ID", "1"), ("Name", "N"), ("Description", "D")]⟩
      = (⟨[⟨1, "A", some "B"⟩], []⟩, ⟨405, "Method Not Allowed\n"⟩) :=
  (wrong_method_405 _ _ _).2.2.1 (by decide)

/-- C7: a POST to `/projects/create` with non-empty Name and Description whose
ID is the id of a stored row is answered 500, and the rows of the store
afterwards are the rows before. -/
theorem projectsCreate_duplicate (db : DB) (r : Request) (ID : Int) (row : Row)
    (hm : r.Method = "POST")
    (hid : ParseInt (r.FormValue "ID") 10 64 = (ID, none))
    (hrow : row ∈ db.rows) (hdup : row.id = ID)
    (hname : r.FormValue "Name" ≠ "") (hdesc : r.FormValue "Description" ≠ "") :
    (projectsCreate db r).2.status = 500 ∧ (projectsCreate db r).1.rows = db.rows := by
  unfold projectsCreate
  rw [if_neg (by simp [hm]), hid]
  simp only [hname, hdesc, or_self, if_false, DB.Exec, execute]
  rcases hi : integer ID with e | i
  · simp [Error]
  · have := (integer_eq_ok ID i hi).1
    subst this
    rcases varchar 500 (r.FormValue "Name") with e | n
    · simp [Error]
    · rcases varchar 1000 (r.FormValue "Description") with e | d
      · simp [Error]
      · have hany := any_id_eq_true _ _ row hrow hdup
        simp only [List.any_eq_true, decide_eq_true_eq] at hany
        simp [hany, Error]

/-- C7 at a second create of id 10. -/
theorem projectsCreate_duplicate_witness :
    (projectsCreate ⟨[⟨10, "A", some "B"⟩], []⟩
        ⟨"POST", [("ID", "10"), ("Name", "C"), ("Description", "D")]⟩).2.status = 500 ∧
      (projectsCreate ⟨[⟨10, "A", some "B"⟩], []⟩
        ⟨"POST", [("ID", "10"), ("Name", "C"), ("Description", "D")]⟩).1.rows
        = [⟨10, "A", some "B"⟩] :=
  projectsCreate_duplicate ⟨[⟨10, "A", some "B"⟩], []⟩
    ⟨"POST", [("ID", "10"), ("Name", "C"), ("Description", "D")]⟩ 10 ⟨10, "A", some "B"⟩
    (by decide) (by decide) (by decide) (by decide) (by decide) (by decide)

/-- C5, as stated, fails: an id that parses as a 64-bit integer but is outside
the 32-bit range of the `id` column, a Name of 501 characters, a Description
of 1001 characters, or a Name or Description that holds the character U+0000
makes the insert fail; the answer is 500 and no row is added. -/
theorem projectsCreate_inserts_counterexample :
    (ParseInt "2147483648" 10 64 = (2147483648, none) ∧
      projectsCreate ⟨[], []⟩
          ⟨"POST", [("ID", "2147483648"), ("Name", "A"), ("Description", "B")]⟩
        = (⟨[], [Stmt.insert 2147483648 "A" "B"]⟩, ⟨500, "Internal Server Error\n"⟩)) ∧
    projectsCreate ⟨[], []⟩
        ⟨"POST", [("ID", "10"), ("Name", ⟨List.replicate 501 'x'⟩), ("Description", "B")]⟩
      = (⟨[], [Stmt.insert 10 ⟨List.replicate 501 'x'⟩ "B"]⟩,
          ⟨500, "Internal Server Error\n"⟩) ∧
    projectsCreate ⟨[], []⟩
        ⟨"POST", [("ID", "10"), ("Name", "A"), ("Description", ⟨List.replicate 1001 'x'⟩)]⟩
      = (⟨[], [Stmt.insert 10 "A" ⟨List.replicate 1001 'x'⟩]⟩,
          ⟨500, "Internal Server Error\n"⟩) ∧
    projectsCreate ⟨[], []⟩
        ⟨"POST", [("ID", "10"), ("Name", ⟨[NUL]⟩), ("Description", "B")]⟩
      = (⟨[], [Stmt.insert 10 ⟨[NUL]⟩ "B"]⟩, ⟨500, "Internal Server Error\n"⟩) ∧
    projectsCreate ⟨[], []⟩
        ⟨"POST", [("ID", "10"), ("Name", "A"), ("Description", ⟨[NUL]⟩)]⟩
      = (⟨[], [Stmt.insert 10 "A" ⟨[NUL]⟩]⟩, ⟨500, "Internal Server Error\n"⟩) := by
  set_option maxRecDepth 100000 in decide

/-- C5, amended: a POST to `/projects/create` whose ID parses as a signed 64-bit
decimal integer, lies in the 32-bit range of the `id` column and is the id of
no stored row, with a non-empty Name of at most 500 characters and a non-empty
Description of at most 1000 characters, neither holding the character U+0000,
leaves the store with its former rows plus exactly one row of the supplied id,
name and description, and is answered 200 with the line
`Project <JSON-encoded Name> created successfully (1 row affected)`. -/
theorem projectsCreate_inserts (db : DB) (r : Request) (ID : Int)
    (hm : r.Method = "POST")
    (hid : ParseInt (r.FormValue "ID") 10 64 = (ID, none))
    (hfit : fitsInteger ID)
    (hnew : ∀ row ∈ db.rows, row.id ≠ ID)
    (hname : r.FormValue "Name" ≠ "") (hdesc : r.FormValue "Description" ≠ "")
    (hnlen : (r.FormValue "Name").length ≤ 500)
    (hdlen : (r.FormValue "Description").length ≤ 1000)
    (hnnul : NUL ∉ (r.FormValue "Name").data)
    (hdnul : NUL ∉ (r.FormValue "Description").data) :
    (projectsCreate db r).1.rows
        = db.rows ++ [⟨ID, r.FormValue "Name", some (r.FormValue "Description")⟩] ∧
      (projectsCreate db r).2 = ⟨200, "Project " ++ marshalString (r.FormValue "Name") ++
        " created successfully (1 row affected)\n"⟩ := by
  unfold projectsCreate
  rw [if_neg (by simp [hm]), hid]
  simp only [hname, hdesc, or_self, if_false, DB.Exec,
    execute_insert _ _ _ _ hfit hnnul hdnul hnlen hdlen hnew, RowsAffected, Fprintf,
    Sprintf_created]
  simp [formatInt_one]
  rw [String.append_assoc, String.append_assoc]
  rfl

/-- C5 at the create of id 10 with name `A` and description `B`. -/
theorem projectsCreate_inserts_witness :
    (projectsCreate ⟨[⟨3, "X", none⟩], []⟩
        ⟨"POST", [("ID", "10"), ("Name", "A"), ("Description", "B")]⟩).1.rows
        = [⟨3, "X", none⟩, ⟨10, "A", some "B"⟩] ∧
      (projectsCreate ⟨[⟨3, "X", none⟩], []⟩
        ⟨"POST", [("ID", "10"), ("Name", "A"), ("Description", "B")]⟩).2
        = ⟨200, "Project \"A\" created successfully (1 row affected)\n"⟩ :=
  projectsCreate_inserts ⟨[⟨3, "X", none⟩], []⟩
    ⟨"POST", [("ID", "10"), ("Name", "A"), ("Description", "B")]⟩ 10
    (by decide) (by decide) (by decide) (by decide) (by decide) (by decide) (by decide)
    (by decide) (by decide) (by decide)

/-- C6, as stated, fails: with an id outside the 32-bit range of the `id`
column the update is answered 500 although no row has that id; and with a
Name of 501 characters, a Description of 1001 characters, or a Name or
Description that holds the character U+0000, for a stored id, the answer is
500 and the row keeps its name and description. -/
theorem projectsUpdate_frame_counterexample :
    (ParseInt "2147483648" 10 64 = (2147483648, none) ∧
      projectsUpdate ⟨[], []⟩
          ⟨"PUT", [("ID", "2147483648"), ("Name", "C"), ("Description", "D")]⟩
        = (⟨[], [Stmt.update 2147483648 "C" "D"]⟩, ⟨500, "Internal Server Error\n"⟩)) ∧
    projectsUpdate ⟨[⟨10, "A", some "B"⟩], []⟩
        ⟨"PUT", [("ID", "10"), ("Name", ⟨List.replicate 501 'x'⟩), ("Description", "D")]⟩
      = (⟨[⟨10, "A", some "B"⟩], [Stmt.update 10 ⟨List.replicate 501 'x'⟩ "D"]⟩,
          ⟨500, "Internal Server Error\n"⟩) ∧
    projectsUpdate ⟨[⟨10, "A", some "B"⟩], []⟩
        ⟨"PUT", [("ID", "10"), ("Name", "C"), ("Description", ⟨List.replicate 1001 'x'⟩)]⟩
      = (⟨[⟨10, "A", some "B"⟩], [Stmt.update 10 "C" ⟨List.replicate 1001 'x'⟩]⟩,
          ⟨500, "Internal Server Error\n"⟩) ∧
    projectsUpdate ⟨[⟨10, "A", some "B"⟩], []⟩
        ⟨"PUT", [("ID", "10"), ("Name", ⟨[NUL]⟩), ("Description", "D")]⟩
      = (⟨[⟨10, "A", some "B"⟩], [Stmt.update 10 ⟨[NUL]⟩ "D"]⟩,
          ⟨500, "Internal Server Error\n"⟩) ∧
    projectsUpdate ⟨[⟨10, "A", some "B"⟩], []⟩
        ⟨"PUT", [("ID", "10"), ("Name", "C"), ("Description", ⟨[NUL]⟩)]⟩
      = (⟨[⟨10, "A", some "B"⟩], [Stmt.update 10 "C" ⟨[NUL]⟩]⟩,
          ⟨500, "Internal Server Error\n"⟩) := by
  set_option maxRecDepth 100000 in decide

/-- C6, amended: a PUT to `/projects/update` whose ID parses as a 64-bit integer
and lies in the 32-bit range of the `id` column, with a non-empty Name of at
most 500 characters and a non-empty Description of at most 1000 characters,
neither holding the character U+0000, is answered 200 and changes the store
only in the rows whose id is ID, whose name and description become the
supplied ones: every other row is as before, in place, and no row is added or
removed.  If no row has that id the rows are unchanged and the answer is still
200, reporting 0 rows affected. -/
theorem projectsUpdate_frame (db : DB) (r : Request) (ID : Int)
    (hm : r.Method = "PUT")
    (hid : ParseInt (r.FormValue "ID") 10 64 = (ID, none))
    (hfit : fitsInteger ID)
    (hname : r.FormValue "Name" ≠ "") (hdesc : r.FormValue "Description" ≠ "")
    (hnlen : (r.FormValue "Name").length ≤ 500)
    (hdlen : (r.FormValue "Description").length ≤ 1000)
    (hnnul : NUL ∉ (r.FormValue "Name").data)
    (hdnul : NUL ∉ (r.FormValue "Description").data) :
    (projectsUpdate db r).2.status = 200 ∧
      (projectsUpdate db r).1.rows = db.rows.map (fun row =>
        if row.id = ID then ⟨ID, r.FormValue "Name", some (r.FormValue "Description")⟩
        else row) ∧
      (projectsUpdate db r).1.rows.map Row.id = db.rows.map Row.id ∧
      ((∀ row ∈ db.rows, row.id ≠ ID) →
        (projectsUpdate db r).1.rows = db.rows ∧
        (projectsUpdate db r).2 = ⟨200, "Project " ++ formatInt ID ++
          " updated successfully, (0 row affected)\n"⟩) := by
  have hex := execute_update db.rows ID (r.FormValue "Name") (r.FormValue "Description")
    hfit hnnul hdnul hnlen hdlen
  have hrows : (projectsUpdate db r).1.rows = db.rows.map (fun row =>
      if row.id = ID then ⟨ID, r.FormValue "Name", some (r.FormValue "Description")⟩
      else row) := by
    unfold projectsUpdate
    rw [if_neg (by simp [hm]), hid]
    simp only [hname, hdesc, or_self, if_false, DB.Exec, hex, RowsAffected, Fprintf]
    apply List.map_congr_left
    intro row _
    by_cases h : row.id = ID
    · simp [h]
    · simp [h]
  refine ⟨?_, hrows, ?_, ?_⟩
  · unfold projectsUpdate
    rw [if_neg (by simp [hm]), hid]
    simp only [hname, hdesc, or_self, if_false, DB.Exec, hex, RowsAffected, Fprintf]
  · rw [hrows, List.map_map]
    apply List.map_congr_left
    intro row _
    by_cases h : row.id = ID
    · simp [h]
    · simp [h]
  · intro hno
    constructor
    · rw [hrows]
      conv_rhs => rw [← List.map_id db.rows]
      apply List.map_congr_left
      intro row hrow
      simp [hno row hrow]
    · unfold projectsUpdate
      rw [if_neg (by simp [hm]), hid]
      simp only [hname, hdesc, or_self, if_false, DB.Exec, hex, RowsAffected, Fprintf,
        Sprintf_updated, filter_id_eq_nil _ _ hno]
      simp [formatInt_zero]
      rw [String.append_assoc, String.append_assoc]
      rfl

/-- C6 at the update of id 10 in a store of two rows. -/
theorem projectsUpdate_frame_witness :
    (projectsUpdate ⟨[⟨3, "X", none⟩, ⟨10, "A", some "B"⟩], []⟩
        ⟨"PUT", [("ID", "10"), ("Name", "C"), ("Description", "D")]⟩).1.rows
      = [⟨3, "X", none⟩, ⟨10, "C", some "D"⟩] :=
  (projectsUpdate_frame ⟨[⟨3, "X", none⟩, ⟨10, "A", some "B"⟩], []⟩
    ⟨"PUT", [("ID", "10"), ("Name", "C"), ("Description", "D")]⟩ 10
    (by decide) (by decide) (by decide) (by decide) (by decide) (by decide) (by decide)
    (by decide) (by decide)).2.1

/-- C9, as stated, fails: a DELETE whose ID parses as a 64-bit integer outside
the 32-bit range of the `id` column matches no stored row, and is answered 500
rather than 200. -/
theorem projectsDelete_rows_counterexample :
    ParseInt "2147483648" 10 64 = (2147483648, none) ∧
      projectsDelete ⟨[], []⟩ ⟨"DELETE", [("ID", "2147483648")]⟩
        = (⟨[], [Stmt.delete 2147483648]⟩, ⟨500, "Internal Server Error\n"⟩) := by
  decide

/-- C9, amended: a DELETE to `/projects/delete` whose ID parses as a 64-bit
integer and lies in the 32-bit range of the `id` column, on a store that
respects its primary key, is answered 200 with a line naming the id and the
number of rows affected.  When no stored row has the id that number is 0 and
the rows are unchanged; when a row has it, exactly that row is removed and the
number is 1. -/
theorem projectsDelete_rows (db : DB) (r : Request) (ID : Int)
    (hm : r.Method = "DELETE")
    (hid : ParseInt (r.FormValue "ID") 10 64 = (ID, none))
    (hfit : fitsInteger ID)
    (hpk : PrimaryKey db.rows) :
    ((∀ row ∈ db.rows, row.id ≠ ID) →
        (projectsDelete db r).2 = ⟨200, "Project " ++ formatInt ID ++
          " deleted successfully (0 row affected)\n"⟩ ∧
        (projectsDelete db r).1.rows = db.rows) ∧
      (∀ row ∈ db.rows, row.id = ID →
        (projectsDelete db r).2 = ⟨200, "Project " ++ formatInt ID ++
          " deleted successfully (1 row affected)\n"⟩ ∧
        (projectsDelete db r).1.rows = db.rows.erase row) := by
  constructor
  · intro hno
    unfold projectsDelete
    rw [if_neg (by simp [hm]), hid]
    simp only [DB.Exec, execute_delete _ _ hfit, RowsAffected, Fprintf, Sprintf_deleted,
      filter_id_eq_nil _ _ hno, filter_id_ne_self _ _ hno]
    simp [formatInt_zero]
    rw [String.append_assoc, String.append_assoc]
    rfl
  · intro row hrow hrid
    subst hrid
    have h := filter_id_of_primaryKey db.rows row hpk hrow
    unfold projectsDelete
    rw [if_neg (by simp [hm]), hid]
    simp only [DB.Exec, execute_delete _ _ hfit, RowsAffected, Fprintf, Sprintf_deleted, h.1, h.2]
    simp [formatInt_one]
    rw [String.append_assoc, String.append_assoc]
    rfl

/-- C9 at the delete of id 10 in a store of two rows. -/
theorem projectsDelete_rows_witness :
    (projectsDelete ⟨[⟨3, "X", none⟩, ⟨10, "A", some "B"⟩], []⟩ ⟨"DELETE", [("ID", "10")]⟩).2
        = ⟨200, "Project 10 deleted successfully (1 row affected)\n"⟩ ∧
      (projectsDelete ⟨[⟨3, "X", none⟩, ⟨10, "A", some "B"⟩], []⟩ ⟨"DELETE", [("ID", "10")]⟩).1.rows
        = [⟨3, "X", none⟩] :=
  (projectsDelete_rows ⟨[⟨3, "X", none⟩, ⟨10, "A", some "B"⟩], []⟩ ⟨"DELETE", [("ID", "10")]⟩ 10
    (by decide) (by decide) (by decide) (by decide)).2 ⟨10, "A", some "B"⟩ (by decide) (by decide)

/-- C10, as stated, fails: a GET whose ID parses to a nonzero integer outside
the 32-bit range of the `id` column matches no stored row, and is answered 500
rather than 404. -/
theorem projectsShow_not_found_counterexample :
    Atoi "2147483648" = (2147483648, none) ∧
      projectsShow ⟨[], []⟩ ⟨"GET", [("ID", "2147483648")]⟩
        = (⟨[], [Stmt.selectByID 2147483648]⟩, ⟨500, "Internal Server Error\n"⟩) := by
  decide

/-- C10, amended: a GET to `/projects/show` whose ID parses to a nonzero
integer that lies in the 32-bit range of the `id` column and that no stored
row has is answered 404.  In particular, after a successful DELETE of an id
(one answered 200) on any store, the GET for that id is answered 404. -/
theorem projectsShow_not_found (db : DB) (r : Request) (ID : Int)
    (hm : r.Method = "GET")
    (hid : Atoi (r.FormValue "ID") = (ID, none)) (hnz : ID ≠ 0) :
    (fitsInteger ID → (∀ row ∈ db.rows, row.id ≠ ID) → (projectsShow db r).2.status = 404) ∧
      (∀ rd : Request, rd.Method = "DELETE" →
        ParseInt (rd.FormValue "ID") 10 64 = (ID, none) →
        (projectsDelete db rd).2.status = 200 →
        (projectsShow (projectsDelete db rd).1 r).2.status = 404) := by
  have key : ∀ d : DB, fitsInteger ID → (∀ row ∈ d.rows, row.id ≠ ID) →
      (projectsShow d r).2.status = 404 := by
    intro d hfit hno
    unfold projectsShow
    rw [if_neg (by simp [hm]), hid]
    simp only [hnz, if_false, DB.QueryRow, DB.Query, execute_selectByID _ _ hfit,
      filter_id_eq_nil _ _ hno, List.map_nil, RowScan, NotFound, Error]
  refine ⟨key db, ?_⟩
  intro rd hmd hidd hok
  by_cases hfit : fitsInteger ID
  · apply key _ hfit
    unfold projectsDelete
    rw [if_neg (by simp [hmd]), hidd]
    simp only [DB.Exec, execute_delete _ _ hfit, RowsAffected]
    intro row hrow
    simpa using (List.mem_filter.mp hrow).2
  · exfalso
    unfold projectsDelete at hok
    rw [if_neg (by simp [hmd]), hidd] at hok
    simp [DB.Exec, execute, integer_error _ hfit, Error] at hok

/-- C10 at the show of id 10 after its delete. -/
theorem projectsShow_not_found_witness :
    (projectsShow (projectsDelete ⟨[⟨10, "A", some "B"⟩], []⟩ ⟨"DELETE", [("ID", "10")]⟩).1
        ⟨"GET", [("ID", "10")]⟩).2.status = 404 :=
  (projectsShow_not_found ⟨[⟨10, "A", some "B"⟩], []⟩ ⟨"GET", [("ID", "10")]⟩ 10
    (by decide) (by decide) (by decide)).2 ⟨"DELETE", [("ID", "10")]⟩ (by decide) (by decide)
    (by decide)

/-- C1: the code answers a GET to `/projects/show` whose ID is a decimal string
too large for an integer differently from what the claim says.  `Atoi` returns
the largest integer with a range error, the error is dropped, and the id is
not zero: on every store the query is sent, and the answer is not 400. -/
theorem projectsShow_id_out_of_range (db : DB) :
    Atoi "9223372036854775808" = (9223372036854775807, some NumError.ErrRange) ∧
      (projectsShow db ⟨"GET", [("ID", "9223372036854775808")]⟩).1.log
        = db.log ++ [Stmt.selectByID 9223372036854775807] ∧
      (projectsShow db ⟨"GET", [("ID", "9223372036854775808")]⟩).2.status ≠ 400 := by
  have h : Atoi "9223372036854775808" = (9223372036854775807, some NumError.ErrRange) := by
    decide
  refine ⟨h, ?_, ?_⟩ <;>
    simp [projectsShow, Request.FormValue, h, DB.QueryRow, DB.Query, execute, integer,
      fitsInteger, RowScan, Error, StatusText]

/-- C2: the code lists a stored row with name and description exchanged.  The
row `(1, "A", "B")` is listed as the project with name `"B"` and description
`"A"`, where the claim (and `projectsShow`) gives name `"A"` and description
`"B"`. -/
theorem projectsIndex_swaps_name_and_description :
    projectsIndex ⟨[⟨1, "A", some "B"⟩], []⟩ ⟨"GET", []⟩
        = (⟨[⟨1, "A", some "B"⟩], [Stmt.selectAll]⟩,
            ⟨200, "[\x7b\"id\":1,\"name\":\"B\",\"description\":\"A\"\x7d]"⟩) ∧
      marshalProjects [⟨1, "A", "B"⟩] = "[\x7b\"id\":1,\"name\":\"A\",\"description\":\"B\"\x7d]" := by
  decide

/-- C3: the code uses the JSON text as a format string, so a percent sign in a
name is read as a directive.  For the stored row `(10, "100%", "B")` the body
is not the JSON encoding of the project. -/
theorem projectsShow_percent_in_name :
    projectsShow ⟨[⟨10, "100%", some "B"⟩], []⟩ ⟨"GET", [("ID", "10")]⟩
        = (⟨[⟨10, "100%", some "B"⟩], [Stmt.selectByID 10]⟩,
            ⟨200, "\x7b\"id\":10,\"name\":\"100%!\"(MISSING),\"description\":\"B\"\x7d"⟩) ∧
      marshalProject ⟨10, "100%", "B"⟩ = "\x7b\"id\":10,\"name\":\"100%\",\"description\":\"B\"\x7d" := by
  decide

end Todo
